import Mathlib

/-!
Shallow embedding of the STM32F4xx flash driver
(src/stm32f4xx_flash.c, src/flash_regs.h).

The compile-time configuration (CONFIG_USR_DRV_FLASH_1M /
CONFIG_USR_DRV_FLASH_2M, CONFIG_USR_DRV_FLASH_DUAL_BANK) is made explicit
as a `FlashConfig` parameter; the sector tables, the address predicates and
the driver entry points are transcribed from the source per configuration.
Register accesses performed by the driver are modelled as a trace of
events; hardware responses the control flow depends on (the outcome of the
post-operation error check) are passed in as explicit boolean parameters.
Machine integers are `Nat` with explicit `% 2^32` where wraparound matters.
-/

namespace Flash

/-- The three flash layouts selected by the preprocessor configuration:
1MB single-bank (12 sectors 0..11), 1MB dual-bank (16 sectors 0..7 and
12..19), 2MB dual-bank (24 sectors 0..23). -/
inductive FlashConfig
  | oneM_single
  | oneM_dual
  | twoM
deriving DecidableEq, Repr

/-- CONFIG_USR_DRV_FLASH_DUAL_BANK: set for the 1MB dual-bank and the 2MB
(always dual-bank) configurations. -/
def dualBank : FlashConfig → Bool
  | .oneM_single => false
  | .oneM_dual => true
  | .twoM => true

/-- FLASH_SECTOR_k constants of flash_regs.h: start address of sector `i`
in configuration `cfg` (0 for an index the configuration does not have). -/
def sectorStart (cfg : FlashConfig) (i : Nat) : Nat :=
  match cfg, i with
  | _, 0 => 0x08000000
  | _, 1 => 0x08004000
  | _, 2 => 0x08008000
  | _, 3 => 0x0800C000
  | _, 4 => 0x08010000
  | _, 5 => 0x08020000
  | _, 6 => 0x08040000
  | _, 7 => 0x08060000
  | .oneM_single, 8 => 0x08080000
  | .oneM_single, 9 => 0x080A0000
  | .oneM_single, 10 => 0x080C0000
  | .oneM_single, 11 => 0x080E0000
  | .oneM_dual, 12 => 0x08080000
  | .oneM_dual, 13 => 0x08084000
  | .oneM_dual, 14 => 0x08088000
  | .oneM_dual, 15 => 0x0808C000
  | .oneM_dual, 16 => 0x08090000
  | .oneM_dual, 17 => 0x080A0000
  | .oneM_dual, 18 => 0x080C0000
  | .oneM_dual, 19 => 0x080E0000
  | .twoM, 8 => 0x08080000
  | .twoM, 9 => 0x080A0000
  | .twoM, 10 => 0x080C0000
  | .twoM, 11 => 0x080E0000
  | .twoM, 12 => 0x08100000
  | .twoM, 13 => 0x08104000
  | .twoM, 14 => 0x08108000
  | .twoM, 15 => 0x0810C000
  | .twoM, 16 => 0x08110000
  | .twoM, 17 => 0x08120000
  | .twoM, 18 => 0x08140000
  | .twoM, 19 => 0x08160000
  | .twoM, 20 => 0x08180000
  | .twoM, 21 => 0x081A0000
  | .twoM, 22 => 0x081C0000
  | .twoM, 23 => 0x081E0000
  | _, _ => 0

/-- FLASH_SECTOR_k_END constants of flash_regs.h: inclusive end address of
sector `i` in configuration `cfg`.  Note: the 2MB table of the header
defines FLASH_SECTOR_12_END as 0x08083FFF (flash_regs.h line 217), which
is transcribed verbatim here. -/
def sectorEnd (cfg : FlashConfig) (i : Nat) : Nat :=
  match cfg, i with
  | _, 0 => 0x08003FFF
  | _, 1 => 0x08007FFF
  | _, 2 => 0x0800BFFF
  | _, 3 => 0x0800FFFF
  | _, 4 => 0x0801FFFF
  | _, 5 => 0x0803FFFF
  | _, 6 => 0x0805FFFF
  | _, 7 => 0x0807FFFF
  | .oneM_single, 8 => 0x0809FFFF
  | .oneM_single, 9 => 0x080BFFFF
  | .oneM_single, 10 => 0x080DFFFF
  | .oneM_single, 11 => 0x080FFFFF
  | .oneM_dual, 12 => 0x08083FFF
  | .oneM_dual, 13 => 0x08087FFF
  | .oneM_dual, 14 => 0x0808BFFF
  | .oneM_dual, 15 => 0x0808FFFF
  | .oneM_dual, 16 => 0x0809FFFF
  | .oneM_dual, 17 => 0x080BFFFF
  | .oneM_dual, 18 => 0x080DFFFF
  | .oneM_dual, 19 => 0x080FFFFF
  | .twoM, 8 => 0x0809FFFF
  | .twoM, 9 => 0x080BFFFF
  | .twoM, 10 => 0x080DFFFF
  | .twoM, 11 => 0x080FFFFF
  | .twoM, 12 => 0x08083FFF
  | .twoM, 13 => 0x08107FFF
  | .twoM, 14 => 0x0810BFFF
  | .twoM, 15 => 0x0810FFFF
  | .twoM, 16 => 0x0811FFFF
  | .twoM, 17 => 0x0813FFFF
  | .twoM, 18 => 0x0815FFFF
  | .twoM, 19 => 0x0817FFFF
  | .twoM, 20 => 0x0819FFFF
  | .twoM, 21 => 0x081BFFFF
  | .twoM, 22 => 0x081DFFFF
  | .twoM, 23 => 0x081FFFFF
  | _, _ => 0

/-- The sector indices the switch in flash_sector_size handles for each
configuration (the case labels present after preprocessing). -/
def validSector (cfg : FlashConfig) (i : Nat) : Bool :=
  match cfg with
  | .oneM_single => decide (i ≤ 11)
  | .oneM_dual => decide (i ≤ 7) || (decide (12 ≤ i) && decide (i ≤ 19))
  | .twoM => decide (i ≤ 23)

/-- Upper bound used by IS_IN_FLASH: FLASH_SECTOR_11_END, FLASH_SECTOR_19_END
or FLASH_SECTOR_23_END depending on the configuration. -/
def flashLastEnd : FlashConfig → Nat
  | .oneM_single => 0x080FFFFF
  | .oneM_dual => 0x080FFFFF
  | .twoM => 0x081FFFFF

/-- IS_IN_FLASH(addr) of flash_regs.h:
(addr >= FLASH_SECTOR_0) && (addr <= last configured sector end). -/
def IS_IN_FLASH (cfg : FlashConfig) (addr : Nat) : Bool :=
  decide (0x08000000 ≤ addr) && decide (addr ≤ flashLastEnd cfg)

/-- The cascading `addr <= FLASH_SECTOR_k_END` if-else chain of
flash_select_sector, as a structural recursion over its list of
(end-address, sector-index) tests: the first test that succeeds assigns
its sector index, and when no test matches the initial value 255 of the
local `sector` variable is returned. -/
def selectChain : List (Nat × Nat) → Nat → Nat
  | [], _ => 255
  | (bound, sec) :: rest, addr =>
      if addr ≤ bound then sec else selectChain rest addr

/-- The tests of flash_select_sector (stm32f4xx_flash.c lines 389-479) in
source order for each configuration.  The first eight tests are common;
the rest is what the preprocessor keeps per configuration.  For 2MB, the
sector-12 test uses the header's FLASH_SECTOR_12_END value 0x08083FFF
(flash_regs.h line 217). -/
def selectTable (cfg : FlashConfig) : List (Nat × Nat) :=
  [(0x08003FFF, 0), (0x08007FFF, 1), (0x0800BFFF, 2), (0x0800FFFF, 3),
   (0x0801FFFF, 4), (0x0803FFFF, 5), (0x0805FFFF, 6), (0x0807FFFF, 7)] ++
  match cfg with
  | .oneM_single =>
      [(0x0809FFFF, 8), (0x080BFFFF, 9), (0x080DFFFF, 10), (0x080FFFFF, 11)]
  | .oneM_dual =>
      [(0x08083FFF, 12), (0x08087FFF, 13), (0x0808BFFF, 14), (0x0808FFFF, 15),
       (0x0809FFFF, 16), (0x080BFFFF, 17), (0x080DFFFF, 18), (0x080FFFFF, 19)]
  | .twoM =>
      [(0x0809FFFF, 8), (0x080BFFFF, 9), (0x080DFFFF, 10), (0x080FFFFF, 11),
       (0x08083FFF, 12), (0x08107FFF, 13), (0x0810BFFF, 14), (0x0810FFFF, 15),
       (0x0811FFFF, 16), (0x0813FFFF, 17), (0x0815FFFF, 18), (0x0817FFFF, 19),
       (0x0819FFFF, 20), (0x081BFFFF, 21), (0x081DFFFF, 22), (0x081FFFFF, 23)]

/-- flash_select_sector: run the configured chain of end-address tests. -/
def flash_select_sector (cfg : FlashConfig) (addr : Nat) : Nat :=
  selectChain (selectTable cfg) addr

/-- The case labels of the switch in is_sector_start (stm32f4xx_flash.c
lines 334-377): the FLASH_SECTOR_k start addresses present in the current
configuration. -/
def sectorStarts (cfg : FlashConfig) : List Nat :=
  [0x08000000, 0x08004000, 0x08008000, 0x0800C000,
   0x08010000, 0x08020000, 0x08040000, 0x08060000] ++
  match cfg with
  | .oneM_single =>
      [0x08080000, 0x080A0000, 0x080C0000, 0x080E0000]
  | .oneM_dual =>
      [0x08080000, 0x08084000, 0x08088000, 0x0808C000,
       0x08090000, 0x080A0000, 0x080C0000, 0x080E0000]
  | .twoM =>
      [0x08080000, 0x080A0000, 0x080C0000, 0x080E0000,
       0x08100000, 0x08104000, 0x08108000, 0x0810C000,
       0x08110000, 0x08120000, 0x08140000, 0x08160000,
       0x08180000, 0x081A0000, 0x081C0000, 0x081E0000]

/-- is_sector_start: true iff addr is one of the configured sector start
addresses. -/
def is_sector_start (cfg : FlashConfig) (addr : Nat) : Bool :=
  (sectorStarts cfg).contains addr

/-- 32-bit unsigned subtraction, as performed by the C expression
`FLASH_SECTOR_k_END - FLASH_SECTOR_k` on uint32_t operands. -/
def u32_sub (a b : Nat) : Nat := (a + 0x100000000 - b) % 0x100000000

/-- flash_sector_size (stm32f4xx_flash.c lines 852-916): per-sector switch
returning FLASH_SECTOR_SIZE(k) = FLASH_SECTOR_k_END - FLASH_SECTOR_k
(uint32 arithmetic, flash_regs.h line 282), 0 on the default branch. -/
def flash_sector_size (cfg : FlashConfig) (sector : Nat) : Nat :=
  if validSector cfg sector then
    u32_sub (sectorEnd cfg sector) (sectorStart cfg sector)
  else 0

/-! ## Register interface and event traces

The driver touches a fixed set of memory-mapped 32-bit registers via
`write_reg_value` (full overwrite) and `set_reg` (read-modify-write into a
(position, mask) field, libc/regutils).  We record each software register
access, busy-polling idiom, raw flash store and post-operation error check
as an event; hardware responses that steer control flow (the result of
`flash_has_programming_errors`) are explicit boolean parameters of the
trace generators. -/

/-- The driver's named registers (offsets 0x00..0x14 from the flash
peripheral base, flash_regs.h lines 8-13). -/
inductive Reg
  | ACR
  | KEYR
  | OPTKEYR
  | SR
  | CR
  | OPTCR
deriving DecidableEq, Repr

/-- One software-visible action of the driver. -/
inductive Event
  /-- write_reg_value(reg, v): full 32-bit overwrite. -/
  | writeReg (r : Reg) (v : Nat)
  /-- set_reg(reg, v, FIELD): read-modify-write of the field at
  (pos, msk). -/
  | setField (r : Reg) (v : Nat) (pos msk : Nat)
  /-- the busy-poll idiom: read FLASH_SR.BSY and spin until clear. -/
  | busyWait
  /-- the raw data store `*(addr) = elem` of the flash_program macro,
  `width` bytes wide. -/
  | store (addr width v : Nat)
  /-- the flash_has_programming_errors read-and-clear of FLASH_SR. -/
  | errCheck
deriving DecidableEq, Repr

/- Field constants from flash_regs.h (position, mask pairs). -/

def FLASH_CR_PG_Pos : Nat := 0
def FLASH_CR_PG_Msk : Nat := 1 <<< 0
def FLASH_CR_SER_Pos : Nat := 1
def FLASH_CR_SER_Msk : Nat := 1 <<< 1
def FLASH_CR_SNB_Pos : Nat := 3
def FLASH_CR_SNB_Msk : Nat := 0xF <<< 3
def FLASH_CR_PSIZE_Pos : Nat := 8
def FLASH_CR_PSIZE_Msk : Nat := 3 <<< 8
def FLASH_CR_STRT_Pos : Nat := 16
def FLASH_CR_STRT_Msk : Nat := 1 <<< 16
def FLASH_CR_LOCK_Pos : Nat := 31
def FLASH_CR_LOCK_Msk : Nat := 1 <<< 31
def FLASH_SR_PGSERR_Pos : Nat := 7
def FLASH_SR_PGSERR_Msk : Nat := 1 <<< 7
def KEY1 : Nat := 0x45670123
def KEY2 : Nat := 0xCDEF89AB

/-- The register file as seen by software. -/
structure RegState where
  acr : Nat
  keyr : Nat
  optkeyr : Nat
  sr : Nat
  cr : Nat
  optcr : Nat
deriving DecidableEq, Repr

def getReg (s : RegState) : Reg → Nat
  | .ACR => s.acr
  | .KEYR => s.keyr
  | .OPTKEYR => s.optkeyr
  | .SR => s.sr
  | .CR => s.cr
  | .OPTCR => s.optcr

def putReg (s : RegState) (r : Reg) (v : Nat) : RegState :=
  match r with
  | .ACR => { s with acr := v }
  | .KEYR => { s with keyr := v }
  | .OPTKEYR => { s with optkeyr := v }
  | .SR => { s with sr := v }
  | .CR => { s with cr := v }
  | .OPTCR => { s with optcr := v }

def mask32 : Nat := 0xFFFFFFFF

/-- Effect of one event on the register file.  `write_reg_value` overwrites
the register; `set_reg` performs `(reg & ~msk) | ((v << pos) & msk)`
(libc/regutils read-modify-write).  Busy polls, raw flash stores and the
status-register error check do not write a register from software, so they
leave the software-written register file unchanged (hardware-driven status
transitions are outside this model). -/
def applyEvent (s : RegState) (e : Event) : RegState :=
  match e with
  | .writeReg r v => putReg s r (v % 0x100000000)
  | .setField r v pos msk =>
      putReg s r ((getReg s r &&& (mask32 ^^^ msk)) ||| ((v <<< pos) &&& msk))
  | .busyWait => s
  | .store _ _ _ => s
  | .errCheck => s

def applyTrace (s : RegState) (tr : List Event) : RegState :=
  tr.foldl applyEvent s

/-! ## Lock / unlock protocol -/

/-- flash_unlock (stm32f4xx_flash.c lines 286-298): KEY1 then KEY2 to the
key register, then the unconditional PGSERR clear (set_reg(SR, 1,
FLASH_SR_PGSERR), the errata workaround). -/
def flash_unlock : List Event :=
  [ .writeReg .KEYR KEY1,
    .writeReg .KEYR KEY2,
    .setField .SR 1 FLASH_SR_PGSERR_Pos FLASH_SR_PGSERR_Msk ]

/-- flash_lock (stm32f4xx_flash.c lines 313-323): full-overwrite of the
control register with 0, then set_reg of the LOCK bit. -/
def flash_lock : List Event :=
  [ .writeReg .CR 0,
    .setField .CR 1 FLASH_CR_LOCK_Pos FLASH_CR_LOCK_Msk ]

/-! ## Erase engine -/

/-- flash_sector_erase (stm32f4xx_flash.c lines 541-593).  Returns the
event trace and the uint8_t return value.  `hwErr` is the outcome of the
final flash_has_programming_errors() call.  Outside IS_IN_FLASH the
function jumps straight to the error exit: no event at all, return 0xFF.
Otherwise: busy guard, sector resolution (with the dual-bank
`(sector - 12) | 0x10` re-encoding when the raw index exceeds 11), then
PSIZE := 2, SER := 1, SNB := sector, STRT := 1, busy wait, SNB := 0,
SER := 0, error check; returns the (re-encoded) sector, or 0xFF when the
error check fired. -/
def flash_sector_erase (cfg : FlashConfig) (addr : Nat) (hwErr : Bool) :
    List Event × Nat :=
  if !(IS_IN_FLASH cfg addr) then ([], 0xff)
  else
    let raw := flash_select_sector cfg addr
    let sector := if dualBank cfg && decide (11 < raw)
      then (raw - 12) ||| 0x10 else raw
    ([ .busyWait,
       .setField .CR 2 FLASH_CR_PSIZE_Pos FLASH_CR_PSIZE_Msk,
       .setField .CR 1 FLASH_CR_SER_Pos FLASH_CR_SER_Msk,
       .setField .CR sector FLASH_CR_SNB_Pos FLASH_CR_SNB_Msk,
       .setField .CR 1 FLASH_CR_STRT_Pos FLASH_CR_STRT_Msk,
       .busyWait,
       .setField .CR 0 FLASH_CR_SNB_Pos FLASH_CR_SNB_Msk,
       .setField .CR 0 FLASH_CR_SER_Pos FLASH_CR_SER_Msk,
       .errCheck ],
     if hwErr then 0xff else sector)

/-! ## Program engine -/

/-- The flash_program macro (stm32f4xx_flash.c lines 669-683): busy guard,
PSIZE := elemCfg, PG := 1, raw store of the value at the address, busy
wait. -/
def flash_program (addr value elemCfg width : Nat) : List Event :=
  [ .busyWait,
    .setField .CR elemCfg FLASH_CR_PSIZE_Pos FLASH_CR_PSIZE_Msk,
    .setField .CR 1 FLASH_CR_PG_Pos FLASH_CR_PG_Msk,
    .store addr width value,
    .busyWait ]

/-- Common body of the four flash_program_{byte,hword,word,dword} entry
points (their C bodies are identical up to the PSIZE code and the pointer
width): auto-erase when the address is a sector start, jumping to the
error exit when the erase returns 0xff; otherwise (or when the address is
not a sector start) the flash_program macro with the width-specific PSIZE
code, then the flash_has_programming_errors check. -/
def flash_program_op (cfg : FlashConfig) (addr value elemCfg width : Nat)
    (hwErrErase : Bool) : List Event :=
  if is_sector_start cfg addr then
    if (flash_sector_erase cfg addr hwErrErase).2 == 0xff then
      (flash_sector_erase cfg addr hwErrErase).1
    else
      (flash_sector_erase cfg addr hwErrErase).1
        ++ flash_program addr value elemCfg width ++ [.errCheck]
  else flash_program addr value elemCfg width ++ [.errCheck]

/-- flash_program_dword (lines 693-708): PSIZE code 3 (64-bit). -/
def flash_program_dword (cfg : FlashConfig) (addr value : Nat)
    (hwErrErase : Bool) : List Event :=
  flash_program_op cfg addr value 3 8 hwErrErase

/-- flash_program_word (lines 718-735): PSIZE code 2 (32-bit). -/
def flash_program_word (cfg : FlashConfig) (addr value : Nat)
    (hwErrErase : Bool) : List Event :=
  flash_program_op cfg addr value 2 4 hwErrErase

/-- flash_program_hword (lines 745-760): PSIZE code 1 (16-bit). -/
def flash_program_hword (cfg : FlashConfig) (addr value : Nat)
    (hwErrErase : Bool) : List Event :=
  flash_program_op cfg addr value 1 2 hwErrErase

/-- flash_program_byte (lines 770-785): PSIZE code 0 (8-bit). -/
def flash_program_byte (cfg : FlashConfig) (addr value : Nat)
    (hwErrErase : Bool) : List Event :=
  flash_program_op cfg addr value 0 1 hwErrErase

/-- The four width variants of the program operation. -/
inductive FlashWidth
  | byte
  | hword
  | word
  | dword
deriving DecidableEq, Repr

/-- The width-specific PSIZE code each variant passes to the program
macro: 0 = 8-bit, 1 = 16-bit, 2 = 32-bit, 3 = 64-bit. -/
def psizeCode : FlashWidth → Nat
  | .byte => 0
  | .hword => 1
  | .word => 2
  | .dword => 3

/-- The store width in bytes of each variant. -/
def widthBytes : FlashWidth → Nat
  | .byte => 1
  | .hword => 2
  | .word => 4
  | .dword => 8

/-- Selector over the four program entry points. -/
def flash_program_any (cfg : FlashConfig) (w : FlashWidth)
    (addr value : Nat) (hwErrErase : Bool) : List Event :=
  match w with
  | .byte => flash_program_byte cfg addr value hwErrErase
  | .hword => flash_program_hword cfg addr value hwErrErase
  | .word => flash_program_word cfg addr value hwErrErase
  | .dword => flash_program_dword cfg addr value hwErrErase

/-- Detects the `set_reg(CR, 1, FLASH_CR_SER)` sector-erase-enable write,
which occurs exactly when a sector erase sequence runs. -/
def isSerEnable : Event → Bool
  | .setField .CR v pos msk =>
      v == 1 && pos == FLASH_CR_SER_Pos && msk == FLASH_CR_SER_Msk
  | _ => false

def eraseOccurs (tr : List Event) : Bool := tr.any isSerEnable

/-- Detects a write to the CR sector-number field SNB. -/
def isSnbWrite : Event → Bool
  | .setField .CR _ pos msk =>
      pos == FLASH_CR_SNB_Pos && msk == FLASH_CR_SNB_Msk
  | _ => false

/-- Value carried by the first SNB-field write of a trace (the sector
number the erase sequence hands to the hardware). -/
def snbWriteValue (tr : List Event) : Option Nat :=
  match tr.find? isSnbWrite with
  | some (.setField _ v _ _) => some v
  | _ => none

/-! ## Read and sector copy -/

/-- flash_read (stm32f4xx_flash.c lines 795-805).  Flash contents are a
byte memory `mem : Nat → Nat`, the caller's buffer a byte function
`buf : Nat → Nat`.  Outside IS_IN_FLASH the function returns without
touching the buffer; otherwise memcpy(buffer, addr, size) overwrites the
first `size` bytes of the buffer with the bytes at addr. -/
def flash_read (cfg : FlashConfig) (mem buf : Nat → Nat)
    (addr size : Nat) : Nat → Nat :=
  if IS_IN_FLASH cfg addr then
    fun i => if i < size then mem (addr + i) else buf i
  else buf

/-- Source address of the 64-byte chunk flash_copy_sector reads in
iteration (i, j): `src + (i << 8) + (j << 4)` (stm32f4xx_flash.c
line 948). -/
def flash_copy_chunk_src (src i j : Nat) : Nat :=
  src + (i <<< 8) + (j <<< 4)

/-- Destination address flash_copy_sector programs for byte k of chunk
(i, j): `dest + (i << 10) + (j << 6) + k` (stm32f4xx_flash.c line 955). -/
def flash_copy_byte_dest (dest i j k : Nat) : Nat :=
  dest + (i <<< 10) + (j <<< 6) + k

/-- Trip count of flash_copy_sector's outer loop (lines 940-944):
`flash_sector_size` applied to the value returned by the destination
erase. -/
def flash_copy_outer_iters (cfg : FlashConfig) (dest : Nat)
    (hwErr : Bool) : Nat :=
  flash_sector_size cfg (flash_sector_erase cfg dest hwErr).2

/-- A sample flash content used to instantiate the read theorem on a
concrete input. -/
def memProbe : Nat → Nat := fun a => a % 251

/-- A sample caller buffer used to instantiate the read theorem on a
concrete input. -/
def bufProbe : Nat → Nat := fun _ => 0x5A

/-! ## Helper lemmas -/

theorem selectChain_mem (t : List (Nat × Nat)) (addr : Nat) :
    selectChain t addr = 255 ∨
    ∃ p ∈ t, selectChain t addr = p.2 ∧ addr ≤ p.1 := by
  induction t with
  | nil => exact Or.inl rfl
  | cons hd rest ih =>
    obtain ⟨bound, sec⟩ := hd
    by_cases h : addr ≤ bound
    · exact Or.inr ⟨(bound, sec), List.mem_cons_self _ _,
        by simp [selectChain, h], h⟩
    · rcases ih with h255 | ⟨p, hp, hv, hb⟩
      · exact Or.inl (by simp [selectChain, h, h255])
      · exact Or.inr ⟨p, List.mem_cons_of_mem _ hp,
          by simp [selectChain, h, hv], hb⟩

theorem selectChain_eq_255_iff (t : List (Nat × Nat)) (addr : Nat)
    (hne : ∀ p ∈ t, p.2 ≠ 255) :
    selectChain t addr = 255 ↔ ∀ p ∈ t, p.1 < addr := by
  induction t with
  | nil => simp [selectChain]
  | cons hd rest ih =>
    obtain ⟨bound, sec⟩ := hd
    have hsec : sec ≠ 255 := hne (bound, sec) (List.mem_cons_self _ _)
    have hrest : ∀ p ∈ rest, p.2 ≠ 255 := fun p hp =>
      hne p (List.mem_cons_of_mem _ hp)
    by_cases h : addr ≤ bound
    · simp only [selectChain, if_pos h]
      constructor
      · intro hs; exact absurd hs hsec
      · intro hall
        have := hall (bound, sec) (List.mem_cons_self _ _)
        omega
    · simp only [selectChain, if_neg h, ih hrest]
      constructor
      · intro hall p hp
        rcases List.mem_cons.mp hp with rfl | hmem
        · simpa using by omega
        · exact hall p hmem
      · intro hall p hp
        exact hall p (List.mem_cons_of_mem _ hp)

theorem selectChain_head (bound sec : Nat) (rest : List (Nat × Nat))
    (addr : Nat) (h : addr ≤ bound) :
    selectChain ((bound, sec) :: rest) addr = sec := by
  simp [selectChain, h]

theorem selectTable_sec_ne_255 (cfg : FlashConfig) :
    ∀ p ∈ selectTable cfg, p.2 ≠ 255 := by
  cases cfg <;> decide

theorem selectTable_sec_le_23 (cfg : FlashConfig) :
    ∀ p ∈ selectTable cfg, p.2 ≤ 23 := by
  cases cfg <;> decide

theorem select_sector_le (cfg : FlashConfig) (addr : Nat)
    (h : IS_IN_FLASH cfg addr = true) : flash_select_sector cfg addr ≤ 23 := by
  rw [IS_IN_FLASH, Bool.and_eq_true, decide_eq_true_eq, decide_eq_true_eq] at h
  obtain ⟨-, hle⟩ := h
  rcases selectChain_mem (selectTable cfg) addr with h255 | ⟨p, hp, hv, hb⟩
  · exfalso
    rw [selectChain_eq_255_iff _ _ (selectTable_sec_ne_255 cfg)] at h255
    revert hle h255
    cases cfg <;>
      simp [selectTable, flashLastEnd, List.forall_mem_cons] <;>
      omega
  · rw [flash_select_sector, hv]
    exact selectTable_sec_le_23 cfg p hp

theorem start_mem_in_flash (cfg : FlashConfig) (addr : Nat)
    (h : is_sector_start cfg addr = true) : IS_IN_FLASH cfg addr = true := by
  rw [is_sector_start] at h
  have h2 : addr ∈ sectorStarts cfg := by simpa using h
  cases cfg <;> fin_cases h2 <;> decide

theorem eraseOccurs_erase_trace (cfg : FlashConfig) (addr : Nat)
    (hwErr : Bool) (h : IS_IN_FLASH cfg addr = true) :
    eraseOccurs (flash_sector_erase cfg addr hwErr).1 = true := by
  simp [flash_sector_erase, h, eraseOccurs, isSerEnable, FLASH_CR_PSIZE_Pos,
    FLASH_CR_PSIZE_Msk, FLASH_CR_SER_Pos, FLASH_CR_SER_Msk, FLASH_CR_SNB_Pos,
    FLASH_CR_SNB_Msk, FLASH_CR_STRT_Pos, FLASH_CR_STRT_Msk]

theorem eraseOccurs_program (addr value ec wd : Nat) :
    eraseOccurs (flash_program addr value ec wd ++ [Event.errCheck]) = false := by
  simp [eraseOccurs, flash_program, isSerEnable, FLASH_CR_PSIZE_Pos,
    FLASH_CR_PSIZE_Msk, FLASH_CR_PG_Pos, FLASH_CR_PG_Msk, FLASH_CR_SER_Pos,
    FLASH_CR_SER_Msk]

theorem erase_result_ne_ff (cfg : FlashConfig) (addr : Nat)
    (h : IS_IN_FLASH cfg addr = true) :
    (flash_sector_erase cfg addr false).2 ≠ 0xff := by
  have hle := select_sector_le cfg addr h
  simp only [flash_sector_erase, h, Bool.not_true, Bool.false_eq_true,
    if_false]
  split
  · have h1 : flash_select_sector cfg addr - 12 ≤ 11 := by omega
    generalize hy : flash_select_sector cfg addr - 12 = y at h1
    interval_cases y <;> decide
  · omega

theorem program_op_spec (cfg : FlashConfig) (addr value ec wd : Nat)
    (hw : Bool) :
    (eraseOccurs (flash_program_op cfg addr value ec wd hw) = true
       ↔ is_sector_start cfg addr = true) ∧
    (is_sector_start cfg addr = false →
      flash_program_op cfg addr value ec wd hw
        = flash_program addr value ec wd ++ [Event.errCheck]) ∧
    (is_sector_start cfg addr = true → hw = false →
      flash_program_op cfg addr value ec wd hw
        = (flash_sector_erase cfg addr hw).1
          ++ flash_program addr value ec wd ++ [Event.errCheck]) := by
  by_cases hs : is_sector_start cfg addr = true
  · have hin := start_mem_in_flash cfg addr hs
    refine ⟨?_, ?_, ?_⟩
    · have hmain : eraseOccurs (flash_program_op cfg addr value ec wd hw)
          = true := by
        rw [flash_program_op, if_pos hs]
        split
        · exact eraseOccurs_erase_trace cfg addr hw hin
        · rw [eraseOccurs, List.any_append, List.any_append]
          have htr := eraseOccurs_erase_trace cfg addr hw hin
          rw [eraseOccurs] at htr
          rw [htr, Bool.true_or, Bool.true_or]
      rw [hmain, hs]
    · intro hf
      rw [hs] at hf
      simp at hf
    · intro _ hw0
      subst hw0
      have hne := erase_result_ne_ff cfg addr hin
      rw [flash_program_op, if_pos hs, if_neg (fun hb => hne (by simpa using hb))]
  · have hs2 : is_sector_start cfg addr = false := by
      simpa using hs
    refine ⟨?_, ?_, ?_⟩
    · rw [flash_program_op, if_neg hs, eraseOccurs_program addr value ec wd, hs2]
    · intro _
      rw [flash_program_op, if_neg hs]
    · intro ht
      rw [hs2] at ht
      simp at ht

/-! ## Claim theorems -/

/-- C1: in the 2MB configuration, the start address of bank-2 sector 12
(0x08100000, a configured sector start per the header table) is resolved
by flash_select_sector to 13, not 12: the 2MB table's FLASH_SECTOR_12_END
is 0x08083FFF, below the sector's own start address, so the sector-12 test
can never succeed and 0x08100000 falls through to the sector-13 test. -/
theorem flash_select_sector_twoM_bank2_start :
    flash_select_sector .twoM 0x08100000 = 13 ∧
    sectorStart .twoM 12 = 0x08100000 ∧
    sectorEnd .twoM 12 = 0x08083FFF ∧
    is_sector_start .twoM 0x08100000 = true := by decide

/-- C2: with destination sector 1 (start 0x08004000) and source sector 0
(start 0x08000000) in the 1MB single-bank configuration, the byte
flash_copy_sector programs at destination offset 64 (iteration i = 0,
j = 1, k = 0) comes from the chunk read at source offset 16, not 64: the
read offsets advance by 256 and 16 bytes per i and j while the write
offsets advance by 1024 and 64; and the outer loop runs
flash_sector_size = 0x3FFF times although the code's comments describe one
iteration per kilobyte of the 16-kB sector.  The destination bytes
therefore do not equal the corresponding source bytes. -/
theorem flash_copy_sector_mismatch :
    flash_copy_byte_dest 0x08004000 0 1 0 = 0x08004000 + 64 ∧
    flash_copy_chunk_src 0x08000000 0 1 = 0x08000000 + 16 ∧
    flash_copy_outer_iters .oneM_single 0x08004000 false = 0x3FFF := by
  decide

/-- C3: FLASH_SECTOR_SIZE computes end - start without the + 1, so
flash_sector_size returns 0x3FFF, not 0x4000, for the 16-kB sector 0 in
every configuration (likewise the dual-bank sector 12), and for the 2MB
sector 12 the uint32 subtraction end - start wraps around; the defensive 0
on an index invalid for the configuration does hold. -/
theorem flash_sector_size_no_plus_one :
    flash_sector_size .oneM_single 0 = 0x3FFF ∧
    sectorEnd .oneM_single 0 - sectorStart .oneM_single 0 + 1 = 0x4000 ∧
    flash_sector_size .oneM_dual 12 = 0x3FFF ∧
    flash_sector_size .twoM 12 = 0xFFF83FFF ∧
    flash_sector_size .oneM_single 12 = 0 := by decide

/-- C4: for every address outside the configured flash range,
flash_sector_erase returns the 0xFF sentinel and performs no register
access at all (its event trace is empty), so every register is left
unchanged. -/
theorem flash_sector_erase_outside_flash (cfg : FlashConfig) (addr : Nat)
    (hwErr : Bool) (h : IS_IN_FLASH cfg addr = false) :
    (flash_sector_erase cfg addr hwErr).1 = [] ∧
    (flash_sector_erase cfg addr hwErr).2 = 0xff ∧
    ∀ s : RegState, applyTrace s (flash_sector_erase cfg addr hwErr).1 = s := by
  simp [flash_sector_erase, h, applyTrace]

/-- C4 witness: address 0x00100000 lies below the flash window of the 1MB
single-bank configuration. -/
theorem flash_sector_erase_outside_flash_witness :
    (flash_sector_erase .oneM_single 0x00100000 false).1 = [] ∧
    (flash_sector_erase .oneM_single 0x00100000 false).2 = 0xff := by
  have h := flash_sector_erase_outside_flash .oneM_single 0x00100000 false
    (by decide)
  exact ⟨h.1, h.2.1⟩

/-- C5: each width variant of the program operation erases the target
sector first exactly when the target address is a configured sector's
first byte, and (when no erase is needed, or when the erase succeeded) its
trace is the erase trace followed by: busy wait, PSIZE := width-specific
code (0 = 8-bit, 1 = 16-bit, 2 = 32-bit, 3 = 64-bit), PG := 1, the raw
store of the value at the address, busy wait, and the error-flag check. -/
theorem flash_program_width_protocol (cfg : FlashConfig) (w : FlashWidth)
    (addr value : Nat) (hwErrErase : Bool) :
    (eraseOccurs (flash_program_any cfg w addr value hwErrErase) = true
       ↔ is_sector_start cfg addr = true) ∧
    (is_sector_start cfg addr = false →
      flash_program_any cfg w addr value hwErrErase
        = flash_program addr value (psizeCode w) (widthBytes w)
          ++ [Event.errCheck]) ∧
    (is_sector_start cfg addr = true → hwErrErase = false →
      flash_program_any cfg w addr value hwErrErase
        = (flash_sector_erase cfg addr hwErrErase).1
          ++ flash_program addr value (psizeCode w) (widthBytes w)
          ++ [Event.errCheck]) := by
  cases w <;> exact program_op_spec cfg addr value _ _ hwErrErase

/-- C5 witness: programming one byte at sector-1 start 0x08004000 in the
1MB single-bank configuration triggers the auto-erase and then the 8-bit
program sequence. -/
theorem flash_program_width_protocol_witness :
    flash_program_any .oneM_single .byte 0x08004000 0xAB false
      = (flash_sector_erase .oneM_single 0x08004000 false).1
        ++ flash_program 0x08004000 0xAB 0 1 ++ [Event.errCheck] :=
  (flash_program_width_protocol .oneM_single .byte 0x08004000 0xAB
    false).2.2 (by decide) rfl

/-- C6: in a dual-bank configuration, when the resolved raw sector index
exceeds 11, the value flash_sector_erase writes to the hardware
sector-number field SNB is (raw - 12) ||| 0x10; in particular raw index 12
yields 0x10 and raw index 19 yields 0x17. -/
theorem flash_sector_erase_snb_reencode (cfg : FlashConfig) (addr : Nat)
    (hwErr : Bool) (hdual : dualBank cfg = true)
    (hin : IS_IN_FLASH cfg addr = true)
    (hgt : 11 < flash_select_sector cfg addr) :
    snbWriteValue (flash_sector_erase cfg addr hwErr).1
      = some ((flash_select_sector cfg addr - 12) ||| 0x10) ∧
    (flash_select_sector cfg addr = 12 →
      snbWriteValue (flash_sector_erase cfg addr hwErr).1 = some 0x10) ∧
    (flash_select_sector cfg addr = 19 →
      snbWriteValue (flash_sector_erase cfg addr hwErr).1 = some 0x17) := by
  have htr : snbWriteValue (flash_sector_erase cfg addr hwErr).1
      = some ((flash_select_sector cfg addr - 12) ||| 0x10) := by
    simp [flash_sector_erase, hin, hdual, hgt, snbWriteValue, List.find?,
      isSnbWrite, FLASH_CR_PSIZE_Pos, FLASH_CR_PSIZE_Msk, FLASH_CR_SER_Pos,
      FLASH_CR_SER_Msk, FLASH_CR_SNB_Pos, FLASH_CR_SNB_Msk]
  refine ⟨htr, fun h12 => ?_, fun h19 => ?_⟩
  · rw [htr, h12]
    decide
  · rw [htr, h19]
    decide

/-- C6 witness: in the 1MB dual-bank configuration, erasing at 0x08080000
resolves raw sector 12 and hands 0x10 to the SNB field write. -/
theorem flash_sector_erase_snb_reencode_witness :
    snbWriteValue (flash_sector_erase .oneM_dual 0x08080000 false).1
      = some 0x10 :=
  (flash_sector_erase_snb_reencode .oneM_dual 0x08080000 false (by decide)
    (by decide) (by decide)).2.1 (by decide)

/-- C7: flash_read leaves the caller's buffer untouched when the address is
outside the configured flash range; otherwise it copies exactly size bytes
starting at the address into the buffer (bytes of the buffer past size are
untouched), with no constraint relating addr + size to the flash end. -/
theorem flash_read_spec (cfg : FlashConfig) (mem buf : Nat → Nat)
    (addr size : Nat) :
    (IS_IN_FLASH cfg addr = false → flash_read cfg mem buf addr size = buf) ∧
    (IS_IN_FLASH cfg addr = true →
      (∀ i, i < size → flash_read cfg mem buf addr size i = mem (addr + i)) ∧
      (∀ i, size ≤ i → flash_read cfg mem buf addr size i = buf i)) := by
  constructor
  · intro h
    simp [flash_read, h]
  · intro h
    refine ⟨fun i hi => ?_, fun i hi => ?_⟩
    · simp [flash_read, h, hi]
    · simp [flash_read, h, Nat.not_lt.mpr hi]

/-- C7 witness: a 0x100-byte read starting 16 bytes before the end of the
1MB single-bank flash window is performed although addr + size runs past
the window; buffer byte 5 receives the flash byte at addr + 5. -/
theorem flash_read_spec_witness :
    flash_read .oneM_single memProbe bufProbe 0x080FFFF0 0x100 5
      = memProbe (0x080FFFF0 + 5) :=
  ((flash_read_spec .oneM_single memProbe bufProbe 0x080FFFF0 0x100).2
    (by decide)).1 5 (by decide)

/-- C8: flash_unlock always writes KEY1 = 0x45670123 then KEY2 = 0xCDEF89AB
to the key register and then unconditionally performs the PGSERR status
write (field position 7, mask 0x80) that clears the write-one-to-clear
flag, whatever the register state; afterwards the key register holds
KEY2. -/
theorem flash_unlock_key_sequence :
    flash_unlock =
      [ Event.writeReg Reg.KEYR 0x45670123,
        Event.writeReg Reg.KEYR 0xCDEF89AB,
        Event.setField Reg.SR 1 7 0x80 ] ∧
    ∀ s : RegState, (applyTrace s flash_unlock).keyr = 0xCDEF89AB :=
  ⟨by decide, fun s => by
    simp [applyTrace, flash_unlock, applyEvent, putReg, getReg, KEY1, KEY2,
      FLASH_SR_PGSERR_Pos, FLASH_SR_PGSERR_Msk]⟩

/-- C8 witness: instantiation at a concrete register state. -/
theorem flash_unlock_key_sequence_witness :
    (applyTrace ⟨1, 2, 3, 4, 5, 6⟩ flash_unlock).keyr = 0xCDEF89AB :=
  flash_unlock_key_sequence.2 ⟨1, 2, 3, 4, 5, 6⟩

/-- C9: flash_lock overwrites the whole control register with zero and only
then sets the lock bit, so after it returns the control register is
exactly the lock mask: every erase/program configuration bit is clear,
regardless of the initial register state. -/
theorem flash_lock_zeroes_then_locks (s : RegState) :
    (applyTrace s flash_lock).cr = FLASH_CR_LOCK_Msk ∧
    (applyTrace s flash_lock).cr &&& (mask32 ^^^ FLASH_CR_LOCK_Msk) = 0 := by
  have h1 : (applyTrace s flash_lock).cr = FLASH_CR_LOCK_Msk := by
    simp [applyTrace, flash_lock, applyEvent, putReg, getReg, mask32,
      FLASH_CR_LOCK_Pos, FLASH_CR_LOCK_Msk]
  exact ⟨h1, by rw [h1]; decide⟩

/-- C9 witness: instantiation at a concrete register state. -/
theorem flash_lock_zeroes_then_locks_witness :
    (applyTrace ⟨1, 2, 3, 4, 5, 6⟩ flash_lock).cr = FLASH_CR_LOCK_Msk :=
  (flash_lock_zeroes_then_locks ⟨1, 2, 3, 4, 5, 6⟩).1

/-- C10: flash_select_sector performs no lower-bound check: every address
below the first sector start 0x08000000 satisfies the first test and
yields sector 0, and the 255 sentinel is returned exactly for the
addresses above the last configured sector end. -/
theorem flash_select_sector_lower_bound (cfg : FlashConfig) (addr : Nat) :
    (addr < 0x08000000 → flash_select_sector cfg addr = 0) ∧
    (flash_select_sector cfg addr = 255 ↔ flashLastEnd cfg < addr) := by
  constructor
  · intro h
    cases cfg <;> refine selectChain_head _ _ _ _ ?_ <;> omega
  · rw [flash_select_sector,
      selectChain_eq_255_iff _ _ (selectTable_sec_ne_255 cfg)]
    cases cfg <;>
      simp [selectTable, flashLastEnd, List.forall_mem_cons] <;>
      omega

/-- C10 witness: address 0x00000000 resolves to sector 0 in the 1MB
single-bank configuration. -/
theorem flash_select_sector_lower_bound_witness :
    flash_select_sector .oneM_single 0 = 0 :=
  (flash_select_sector_lower_bound .oneM_single 0).1 (by decide)

end Flash
